import Mathlib

/-!
Verification of the Galaxy Trader mini-game engine.

This file is a shallow embedding of the algorithmic core of the repository's
mini-games: the reward-commit transaction, the daily-limit check, the session
start guards, the simulation-clock timestep clamp, the collision predicates,
the slice-trail segment distance, the sliding-tile shuffle, and the
path-connector board generator.  JavaScript numbers are modelled as rationals
(exact arithmetic) except where the source genuinely takes square roots, which
are modelled over the reals.  Randomness (calls to Math.random) is modelled by
passing the drawn values in as explicit inputs; asynchronous Firebase calls are
modelled by passing the fetched value or error in as an explicit input.
-/

namespace GalaxyTrader

/-! ### Reward ledger and user economy (document-store model)

The per-user record at users/(uid) carries diamonds, xp and a minigames map
keyed by gameId.  A missing record or missing field is None, mirroring the
JavaScript null / undefined that the source guards with (x || 0) and (x || ).
-/

/-- One ledger entry users/(uid)/minigames/(gameId): the value written by
awardAndMark and read by hasPlayedToday. -/
structure LedgerEntry where
  lastPlayed : String
  reward : ℚ
deriving DecidableEq, Repr

/-- The slice of the user record touched by the reward transaction.  The
spread (...data) in the source preserves all other fields; they are not
modelled.  A field is None when absent from the document. -/
structure UserData where
  diamonds : Option ℚ
  xp : Option ℚ
  minigames : Option (String → Option LedgerEntry)

/-- The empty object the source substitutes for a null record (current || ()). -/
def emptyUserData : UserData :=
  { diamonds := none, xp := none, minigames := none }

/-- The minigames map of a record, defaulting to empty (data.minigames || ()). -/
def mgOf (d : UserData) : String → Option LedgerEntry :=
  d.minigames.getD (fun _ => none)

/-- The guard mg[gameId] && mg[gameId].lastPlayed === todayStr() used both by
the transaction and by hasPlayedToday. -/
def entryIsToday (mg : String → Option LedgerEntry) (gameId today : String) : Bool :=
  match mg gameId with
  | some e => e.lastPlayed == today
  | none => false

/-- The update function passed to runTransaction by awardAndMark /
awardAndMarkDB (CometCatch.tsx lines 96-110, GalaxySlice.tsx lines 79-92; the
same pattern recurs in every game, parametrised here by the game's reward and
xp amounts).  It receives the current record (null modelled as none), returns
it unchanged when the ledger entry already carries today's date, and otherwise
adds the reward to diamonds, the xp amount to xp, and writes
(lastPlayed: today, reward) into the ledger. -/
def awardTxn (gameReward xpReward : ℚ) (gameId today : String)
    (current : Option UserData) : UserData :=
  let data := current.getD emptyUserData
  let mg := mgOf data
  if entryIsToday mg gameId today then data
  else
    { diamonds := some (data.diamonds.getD 0 + gameReward)
      xp := some (data.xp.getD 0 + xpReward)
      minigames := some (fun g =>
        if g = gameId then some { lastPlayed := today, reward := gameReward }
        else mg g) }

/-- Outcome of the asynchronous get() of the ledger entry: either the stored
value (null modelled as none) or a thrown error. -/
inductive FetchOutcome where
  | ok : Option LedgerEntry → FetchOutcome
  | err : String → FetchOutcome
deriving DecidableEq, Repr

/-- hasPlayedToday (CometCatch.tsx lines 81-91, GalaxyRunner.tsx lines 31-41
and the identical copies in the other games): false when signed out; on a
successful read, true iff the stored entry exists and carries today's date; on
a thrown read error the catch block logs and returns false. -/
def hasPlayedToday (user : Option String) (today : String)
    (fetched : FetchOutcome) : Bool :=
  match user with
  | none => false
  | some _ =>
    match fetched with
    | FetchOutcome.ok val =>
      match val with
      | some v => v.lastPlayed == today
      | none => false
    | FetchOutcome.err _ => false

/-! ### Session state machines -/

/-- CometCatch game states (type GameState, CometCatch.tsx line 10). -/
inductive CometState where
  | idle
  | playing
  | ad
  | win
  | lose
deriving DecidableEq, Repr

/-- Game states of GalaxyBlaster / GalaxyRunner / GalaxySlice (their union
type uses the literal lost where CometCatch uses lose). -/
inductive PState where
  | idle
  | playing
  | ad
  | win
  | lost
deriving DecidableEq, Repr

/-- Result of a Start action: the two guard failures of the spec's error
taxonomy, or a successful start.  In the source the failures surface as toast
messages and an early return. -/
inductive StartOutcome where
  | notSignedIn
  | dailyLimitReached
  | started
deriving DecidableEq, Repr

/-! ### CometCatch (falling-object catcher) -/

def HEARTS_START : ℤ := 3

def GAME_DURATION_MS : ℚ := 60000

def TARGET_SCORE_catch : ℤ := 80

/-- Spawn type of a falling object (type SpawnType, CometCatch.tsx line 30). -/
inductive SpawnType where
  | gem
  | comet
  | bomb
deriving DecidableEq, Repr

/-- A falling object (type Falling, CometCatch.tsx lines 32-39). -/
structure Falling where
  id : ℕ
  ftype : SpawnType
  x : ℚ
  y : ℚ
  size : ℚ
  speed : ℚ
deriving DecidableEq, Repr

/-- The transient session of one CometCatch run: React state plus the mutable
refs that drive the loop (runningRef, lastTsRef, basket geometry refs). -/
structure CometSession where
  gameState : CometState
  hearts : ℤ
  score : ℤ
  timeLeft : ℚ
  falling : List Falling
  isAwarded : Bool
  running : Bool
  lastTs : Option ℚ
  gameH : ℚ
  basketX : ℚ
  basketW : ℚ
  basketH : ℚ
  nextId : ℕ
deriving DecidableEq, Repr

/-- The basket collision test of the loop (CometCatch.tsx lines 190-198):
an axis-aligned box-overlap test between the falling item's square (at its
integrated vertical position ny) and the basket rectangle, all comparisons
inclusive. -/
def cometCollided (gameH basketX basketW basketH : ℚ) (item : Falling)
    (ny : ℚ) : Bool :=
  let basketY := gameH - basketH - 16
  decide (basketY ≤ ny + item.size) && decide (ny ≤ basketY + basketH) &&
    decide (basketX ≤ item.x + item.size) && decide (item.x ≤ basketX + basketW)

/-- Effect of catching one object (CometCatch.tsx lines 200-225): gems score
1, comets score 2; a bomb decrements hearts and, when they hit zero, pauses
the loops (pauseGame) and shows the ad modal, clamping hearts at 0. -/
def cometApplyHit (s : CometSession) (t : SpawnType) : CometSession :=
  match t with
  | SpawnType.gem => { s with score := s.score + 1 }
  | SpawnType.comet => { s with score := s.score + 2 }
  | SpawnType.bomb =>
    let n := s.hearts - 1
    if n ≤ 0 then { s with hearts := 0, running := false, gameState := CometState.ad }
    else { s with hearts := n }

/-- One pass of the setFalling updater (CometCatch.tsx lines 185-238): each
item falls by speed times dtSec; a caught item applies its effect and is
removed; an item below the screen margin is removed; the rest keep falling.
Effects are applied in list order, as the queued functional setState updates
are. -/
def cometStepItems (dtSec : ℚ) : List Falling → CometSession → CometSession × List Falling
  | [], s => (s, [])
  | item :: rest, s =>
    let ny := item.y + item.speed * dtSec
    if cometCollided s.gameH s.basketX s.basketW s.basketH item ny then
      cometStepItems dtSec rest (cometApplyHit s item.ftype)
    else if decide (s.gameH + 200 < ny) then
      cometStepItems dtSec rest s
    else
      let pr := cometStepItems dtSec rest s
      (pr.1, { item with y := ny } :: pr.2)

/-- The frame timestep of the CometCatch loop (line 178):
dt = Math.min(60, ts - lastTs), in milliseconds. -/
def cometDtOf (last now : ℚ) : ℚ := min 60 (now - last)

/-- The timer branch of the loop (CometCatch.tsx lines 241-254): the clock
decreases by dt clamped at zero; when it reaches zero the loops pause and the
session goes to win when the score has reached the target, otherwise directly
to lose.  (In the win branch the source also fires awardAndMark when not yet
awarded; the transaction itself is awardTxn above.) -/
def cometTimerStep (dt : ℚ) (s : CometSession) : CometSession :=
  let nextT := max 0 (s.timeLeft - dt)
  if nextT ≤ 0 then
    if TARGET_SCORE_catch ≤ s.score then
      { s with timeLeft := nextT, running := false, gameState := CometState.win }
    else
      { s with timeLeft := nextT, running := false, gameState := CometState.lose }
  else { s with timeLeft := nextT }

/-- One whole frame of the CometCatch loop (CometCatch.tsx lines 172-265):
when the loop is not running the callback clears lastTs and does nothing;
otherwise it clamps the timestep, moves and collides the falling objects,
steps the countdown, and finally checks the immediate-win condition. -/
def cometFrame (ts : ℚ) (s : CometSession) : CometSession :=
  if s.running = false then { s with lastTs := none }
  else
    let last := s.lastTs.getD ts
    let dt := cometDtOf last ts
    let dtSec := dt / 1000
    let su := { s with lastTs := some ts }
    let pr := cometStepItems dtSec su.falling su
    let s2 := { pr.1 with falling := pr.2 }
    let s3 := cometTimerStep dt s2
    if TARGET_SCORE_catch ≤ s3.score then
      { s3 with running := false, gameState := CometState.win }
    else s3

/-- startGame of CometCatch (lines 288-315): blocked without a signed-in user,
blocked when the daily ledger says already played; otherwise the session is
reset, the basket centred for the current width w, and the loops started.
The two failure paths return before touching any session state. -/
def cometStartGame (user : Option String) (alreadyPlayed : Bool) (w : ℚ)
    (s : CometSession) : CometSession × StartOutcome :=
  match user with
  | none => (s, StartOutcome.notSignedIn)
  | some _ =>
    if alreadyPlayed then (s, StartOutcome.dailyLimitReached)
    else
      let bw : ℤ := max ⌊w * (0.28 : ℚ)⌋ 72
      ({ gameState := CometState.playing
         hearts := HEARTS_START
         score := 0
         timeLeft := GAME_DURATION_MS
         falling := []
         isAwarded := false
         running := true
         lastTs := none
         gameH := s.gameH
         basketX := (w - (bw : ℚ)) / 2
         basketW := (bw : ℚ)
         basketH := ((⌊(bw : ℚ) * (0.5 : ℚ)⌋ : ℤ) : ℚ)
         nextId := 1 }, StartOutcome.started)

/-! ### GalaxyBlaster (shooter) -/

def START_TIME_blaster : ℤ := 30

def BASE_SPAWN_INTERVAL_MS : ℚ := 650

/-- Enemy size class of GalaxyBlaster (type Enemy, field type). -/
inductive EnemySize where
  | small
  | medium
  | big
deriving DecidableEq, Repr

/-- An enemy asteroid of GalaxyBlaster (type Enemy, lines 68-79). -/
structure Enemy where
  id : ℕ
  posX : ℚ
  posY : ℚ
  velX : ℚ
  velY : ℚ
  radius : ℚ
  hp : ℤ
  maxHp : ℤ
  hue : ℚ
  esize : EnemySize
  scoreValue : ℤ
  birth : ℚ
deriving DecidableEq, Repr

/-- A visual particle of GalaxyBlaster (type Particle, lines 80-87). -/
structure Particle where
  posX : ℚ
  posY : ℚ
  velX : ℚ
  velY : ℚ
  life : ℚ
  ttl : ℚ
  hue : ℚ
  psize : ℚ
deriving DecidableEq, Repr

/-- The transient session of one GalaxyBlaster run (React state plus loop
refs). -/
structure BlasterSession where
  gameState : PState
  combo : ℤ
  multiplier : ℚ
  showAdPrompt : Bool
  isAwarded : Bool
  score : ℤ
  timeLeft : ℤ
  enemies : List Enemy
  particles : List Particle
  nextEnemyId : ℕ
  spawnTimer : ℚ
  spawnInterval : ℚ
  running : Bool
deriving DecidableEq, Repr

/-- resetGameState of GalaxyBlaster (lines 147-159). -/
def blasterReset (s : BlasterSession) : BlasterSession :=
  { s with
    enemies := []
    particles := []
    nextEnemyId := 1
    spawnTimer := 0
    spawnInterval := BASE_SPAWN_INTERVAL_MS
    score := 0
    combo := 0
    multiplier := 1
    timeLeft := START_TIME_blaster
    isAwarded := false }

/-- startGame of GalaxyBlaster (lines 162-177): same two guards as CometCatch,
then a full reset and transition to playing with the ticker and loop started. -/
def blasterStartGame (user : Option String) (alreadyPlayed : Bool)
    (s : BlasterSession) : BlasterSession × StartOutcome :=
  match user with
  | none => (s, StartOutcome.notSignedIn)
  | some _ =>
    if alreadyPlayed then (s, StartOutcome.dailyLimitReached)
    else ({ blasterReset s with gameState := PState.playing, running := true },
      StartOutcome.started)

/-- One tick of the GalaxyBlaster one-second ticker (startTicker, lines
519-536): the clock decreases by one second clamped at zero; on reaching zero
the game stops (stopGame cancels the frame callback and the interval) and the
session goes to the ad state, whatever the score. -/
def blasterTick (s : BlasterSession) : BlasterSession :=
  let nt := max 0 (s.timeLeft - 1)
  if nt ≤ 0 then
    { s with
      timeLeft := nt
      running := false
      gameState := PState.ad
      showAdPrompt := true }
  else { s with timeLeft := nt }

/-! ### GalaxySlice (slicer) clock -/

/-- The frame timestep of the GalaxySlice loop (startLoop, line 233):
dt = Math.max(0, Math.min(40, now - last)) / 1000, in seconds. -/
def sliceDtOf (last now : ℚ) : ℚ := max 0 (min 40 (now - last)) / 1000

/-! ### GalaxyRunner (side-scrolling runner) -/

def START_TIME_runner : ℤ := 30

def INVULN_MS : ℚ := 900

/-- A runner obstacle (GalaxyRunner.tsx, spawnObstacle lines 264-274; the
cosmetic hue field is omitted). -/
structure Obstacle where
  id : ℕ
  x : ℚ
  y : ℚ
  w : ℚ
  h : ℚ
  speed : ℚ
deriving DecidableEq, Repr

/-- The transient session of one GalaxyRunner run (React state plus the
mutable refs heartsRef, playerYRef, obstaclesRef, spawnTimerRef and the
canvas size). -/
structure RunnerSession where
  gameState : PState
  hearts : ℤ
  playerX : ℚ
  playerY : ℚ
  playerVy : ℚ
  grounded : Bool
  spawnTimer : ℚ
  timeLeft : ℤ
  invulnerableUntil : ℚ
  obstacles : List Obstacle
  nextId : ℕ
  animTimer : ℚ
  running : Bool
  lastT : Option ℚ
  sizeW : ℚ
  sizeH : ℚ
deriving DecidableEq, Repr

/-- rand(a, b) = a + Math.random() * (b - a), with the drawn value r passed
in explicitly. -/
def randIn (a b r : ℚ) : ℚ := a + r * (b - a)

/-- The six Math.random() draws consumed by one spawnObstacle call. -/
structure RunnerDraw where
  r1 : ℚ
  r2 : ℚ
  r3 : ℚ
  r4 : ℚ
  r5 : ℚ
  r6 : ℚ
deriving DecidableEq, Repr

/-- spawnObstacle (GalaxyRunner.tsx lines 264-274): a new obstacle with
randomised size, height band (ground or flying) and speed, placed just off
the right edge. -/
def runnerSpawnObstacle (d : RunnerDraw) (s : RunnerSession) : RunnerSession :=
  let w : ℚ := ((round (randIn 18 36 d.r1 + s.sizeW * (0.02 : ℚ)) : ℤ) : ℚ)
  let h : ℚ := ((round (randIn 18 36 d.r2 + s.sizeW * (0.02 : ℚ)) : ℤ) : ℚ)
  let groundTop := s.sizeH - max 28 ((round (s.sizeH * (0.18 : ℚ)) : ℤ) : ℚ)
  let isFlying := decide (d.r3 < (0.18 : ℚ))
  let y := if isFlying then randIn 12 (max 12 (groundTop - 80)) d.r4 else groundTop - h
  let speed : ℚ := ((round (s.sizeW * ((0.45 : ℚ) + d.r5 * (0.12 : ℚ))) : ℤ) : ℚ)
  let x := s.sizeW + 20 + randIn 0 80 d.r6
  { s with
    nextId := s.nextId + 1
    obstacles := s.obstacles ++ [{ id := s.nextId, x := x, y := y, w := w, h := h, speed := speed }] }

/-- The obstacle movement-and-collision pass of update (GalaxyRunner.tsx
lines 318-358).  The source iterates over a snapshot of the obstacle map
while mutating the map in place; the model carries the current map in the
session and applies each mutation to it.  On a damaging hit: hearts are
clamped at 0, invulnerability starts, the map is cleared, and when hearts
reach zero the ad modal is shown (showAdModalForHearts stops the loop and
the countdown and sets the state to ad) and the update returns early -
signalled by the Bool component. -/
def runnerObstaclesLoop (now dt : ℚ) : List Obstacle → RunnerSession → RunnerSession × Bool
  | [], s => (s, false)
  | o :: rest, s =>
    let nx := o.x - o.speed * dt
    let o' := { o with x := nx }
    let cur := s.obstacles.map (fun p => if p.id = o.id then o' else p)
    if decide (nx + o.w < -32) then
      runnerObstaclesLoop now dt rest
        { s with obstacles := cur.filter (fun p => p.id ≠ o.id) }
    else
      let s1 := { s with obstacles := cur }
      let groundY := s.sizeH - max 28 ((round (s.sizeH * (0.18 : ℚ)) : ℤ) : ℚ)
      let px := if s.playerX = 0 then ((round (s.sizeW * (0.12 : ℚ)) : ℤ) : ℚ) else s.playerX
      let py := if s.playerY = 0 then groundY - 12 else s.playerY
      let pW := ((round (s.sizeW * (0.12 : ℚ)) : ℤ) : ℚ)
      let pH := ((round (s.sizeH * (0.18 : ℚ)) : ℤ) : ℚ)
      let collide :=
        decide (px - pW * (0.25 : ℚ) < o'.x + o'.w) &&
          decide (o'.x < px + pW * (0.75 : ℚ)) &&
          decide (py - pH < o'.y + o'.h) && decide (o'.y < py)
      if collide then
        if decide (now < s1.invulnerableUntil) then
          runnerObstaclesLoop now dt rest s1
        else
          let hearts' := max 0 (s1.hearts - 1)
          let s2 := { s1 with
            hearts := hearts'
            invulnerableUntil := now + INVULN_MS
            obstacles := [] }
          if hearts' ≤ 0 then
            ({ s2 with gameState := PState.ad, running := false }, true)
          else runnerObstaclesLoop now dt rest s2
      else runnerObstaclesLoop now dt rest s1

/-- update of GalaxyRunner (lines 277-362): guarded to the playing state;
player gravity integration, the top clamp, the ground clamp, the
difficulty-scaled spawn cadence, then the obstacle pass above.  The final
leg-animation accumulator is skipped when the obstacle pass returned early. -/
def runnerUpdate (now dt : ℚ) (draw : RunnerDraw) (s : RunnerSession) : RunnerSession :=
  if s.gameState ≠ PState.playing then s
  else
    let gravity := s.sizeH * (2.6 : ℚ)
    let vy1 := s.playerVy + gravity * dt
    let y1 := s.playerY + vy1 * dt
    let groundY := s.sizeH - max 28 ((round (s.sizeH * (0.18 : ℚ)) : ℤ) : ℚ)
    let sizeBase : ℚ := ((round (s.sizeH * (0.18 : ℚ)) : ℤ) : ℚ)
    let bodyH := sizeBase * (0.6 : ℚ)
    let headR := sizeBase * (0.22 : ℚ)
    let minPlayerPy : ℚ := max 6 ((round (bodyH + headR + 6) : ℤ) : ℚ)
    let y2 := if y1 < minPlayerPy then minPlayerPy else y1
    let vy2 := if y1 < minPlayerPy ∧ vy1 < 0 then 0 else vy1
    let y3 := if groundY - 12 ≤ y2 then groundY - 12 else y2
    let vy3 := if groundY - 12 ≤ y2 then 0 else vy2
    let grounded3 := decide (groundY - 12 ≤ y2)
    let s1 := { s with playerVy := vy3, playerY := y3, grounded := grounded3 }
    let st := s1.spawnTimer + dt * 1000
    let interval : ℚ :=
      max 520 (1000 - ((⌊(((START_TIME_runner : ℚ) - (s1.timeLeft : ℚ)) * 14)⌋ : ℤ) : ℚ))
    let s2 :=
      if interval ≤ st then runnerSpawnObstacle draw { s1 with spawnTimer := 0 }
      else { s1 with spawnTimer := st }
    let pr := runnerObstaclesLoop now dt s2.obstacles s2
    if pr.2 then pr.1 else { pr.1 with animTimer := pr.1.animTimer + dt }

/-- One frame of the GalaxyRunner loop (lines 253-261): when no frame is
scheduled nothing happens; otherwise the timestep is clamped to 0.05 s,
update runs, and the next frame is scheduled only while still playing. -/
def runnerFrame (t : ℚ) (draw : RunnerDraw) (s : RunnerSession) : RunnerSession :=
  if s.running = false then s
  else
    let last := s.lastT.getD t
    let dt := min (0.05 : ℚ) ((t - last) / 1000)
    let s1 := runnerUpdate t dt draw { s with lastT := some t }
    if s1.gameState = PState.playing then s1 else { s1 with running := false }

/-! ### OrbitDefense (bullets versus asteroids, MemoryGame.tsx) -/

/-- The bullet-asteroid collision test of the OrbitDefense update
(MemoryGame.tsx lines 915-920): with dx, dy the difference of centres and
rr the sum of the radii, a hit is reported iff dx*dx + dy*dy <= rr*rr -
the boundary-inclusive circle-circle overlap test on squared lengths. -/
def orbitHit (bX bY bRadius aX aY aRadius : ℚ) : Bool :=
  let dx := aX - bX
  let dy := aY - bY
  let rr := aRadius + bRadius
  decide (dx * dx + dy * dy ≤ rr * rr)

/-! ### SlidePuzzle (3 by 3 sliding tiles) -/

/-- A board position holds the tile whose home it shows, or none for the
blank (the board arrays of SlidePuzzle.tsx). -/
def SlideBoard : Type := List (Option ℕ)

instance : DecidableEq SlideBoard :=
  inferInstanceAs (DecidableEq (List (Option ℕ)))

/-- The nested counting loop of shuffleSolvable (SlidePuzzle.tsx lines
91-96): the number of pairs i < j with flat i > flat j. -/
def inversions : List ℕ → ℕ
  | [] => 0
  | x :: xs => (xs.filter (fun y => decide (y < x))).length + inversions xs

/-- The tiles of a board in reading order with the blank removed
(candidate.filter(v => v !== null), line 90). -/
def flatTiles (b : SlideBoard) : List ℕ := b.filterMap id

/-- The acceptance test inv % 2 === 0 of shuffleSolvable (line 97): the
standard solvability criterion for an odd-width board. -/
def solvableBoard (b : SlideBoard) : Bool := inversions (flatTiles b) % 2 == 0

/-- The already-solved test of shuffleSolvable (lines 98-101): every position
holds its own index, with the blank at the bottom-right position 8. -/
def isSolvedBoard (b : SlideBoard) : Bool :=
  b.enum.all (fun p =>
    if p.1 = 8 then decide (p.2 = none) else decide (p.2 = some p.1))

/-- toArrayWithNull (SlidePuzzle.tsx lines 78-86): the single pass that
copies the 8 shuffled tiles in order, inserting the blank at blankPos. -/
def toArrayWithNull (order : List ℕ) (blankPos : ℕ) : SlideBoard :=
  ((order.take blankPos).map some) ++ [none] ++ ((order.drop blankPos).map some)

/-- The degenerate fallback board of shuffleSolvable (lines 108-112): the
solved layout with the first two tiles swapped. -/
def slideFallbackBoard : SlideBoard :=
  [some 1, some 0, some 2, some 3, some 4, some 5, some 6, some 7, none]

/-- shuffleSolvable (SlidePuzzle.tsx lines 72-113).  Each attempt draws a
shuffled tile order and a blank position (Math.random; modelled as the input
list, at most 200 entries in the source), builds the candidate board, and
accepts it when the inversion count is even and the board is not already
solved; when every attempt is rejected the fallback board is returned. -/
def shuffleSolvable : List (List ℕ × ℕ) → SlideBoard
  | [] => slideFallbackBoard
  | (order, blankPos) :: rest =>
    let candidate := toArrayWithNull order blankPos
    if solvableBoard candidate && !isSolvedBoard candidate then candidate
    else shuffleSolvable rest

/-! ### ConnectFlowGrid (path connector, src/unnamed/part_004) -/

/-- A grid cell (type Cell, part_004 line 32). -/
structure Cell where
  x : ℕ
  y : ℕ
deriving DecidableEq, Repr

/-- neighbors (part_004 lines 42-49): the in-bounds 4-neighbours of a cell on
a size by size grid, in the source's push order. -/
def neighborsOf (c : Cell) (size : ℕ) : List Cell :=
  (if 0 < c.x then [{ x := c.x - 1, y := c.y }] else []) ++
    (if c.x < size - 1 then [{ x := c.x + 1, y := c.y }] else []) ++
    (if 0 < c.y then [{ x := c.x, y := c.y - 1 }] else []) ++
    (if c.y < size - 1 then [{ x := c.x, y := c.y + 1 }] else [])

/-- Path reconstruction of bfsPath (part_004 lines 70-78): walk the came map
backwards from the goal, accumulating the path in start-to-goal order (the
source pushes then reverses).  The fuel bounds the walk; callers pass more
fuel than the number of visited cells, so it never runs out. -/
def reconstructPath (came : List (Cell × Option Cell)) : ℕ → Cell → List Cell → List Cell
  | 0, cur, acc => cur :: acc
  | fuel + 1, cur, acc =>
    match (came.find? (fun p => p.1 = cur)).bind (fun p => p.2) with
    | some prev => reconstructPath came fuel prev (cur :: acc)
    | none => cur :: acc

/-- The neighbour scan of one BFS dequeue (part_004 lines 64-81): already
seen cells are skipped, occupied cells other than the goal are skipped, new
cells are recorded in the came map and enqueued, and reaching the goal stops
the search (signalled by the Bool component). -/
def bfsVisit (goal : Cell) (occupied : List Cell) (cur : Cell) :
    List Cell → List Cell → List (Cell × Option Cell) →
      List Cell × List (Cell × Option Cell) × Bool
  | [], q, came => (q, came, false)
  | n :: rest, q, came =>
    if (came.find? (fun p => p.1 = n)).isSome then
      bfsVisit goal occupied cur rest q came
    else if n ≠ goal ∧ n ∈ occupied then
      bfsVisit goal occupied cur rest q came
    else
      let came' := came ++ [(n, some cur)]
      if n = goal then (q, came', true)
      else bfsVisit goal occupied cur rest (q ++ [n]) came'

/-- The while loop of bfsPath (part_004 lines 62-82), with explicit fuel.
Callers pass more fuel than cells can ever be enqueued, so fuel exhaustion
never decides the result. -/
def bfsLoop (goal : Cell) (size : ℕ) (occupied : List Cell) :
    ℕ → List Cell → List (Cell × Option Cell) → Option (List Cell)
  | 0, _, _ => none
  | _ + 1, [], _ => none
  | fuel + 1, cur :: q, came =>
    let r := bfsVisit goal occupied cur (neighborsOf cur size) q came
    if r.2.2 then some (reconstructPath r.2.1 (size * size + 1) goal [])
    else bfsLoop goal size occupied fuel r.1 r.2.1

/-- bfsPath (part_004 lines 53-84): shortest 4-neighbour route from start to
goal through cells not in occupied (the goal itself excepted), or none. -/
def bfsPath (start goal : Cell) (size : ℕ) (occupied : List Cell) : Option (List Cell) :=
  if start = goal then some [start]
  else bfsLoop goal size occupied (size * size * 4 + 4) [start] [(start, none)]

/-- A colored endpoint pair (type Pair, part_004 lines 33-40; the cosmetic
color field and the player-facing connected flag are omitted). -/
structure FlowPair where
  id : ℕ
  a : Cell
  b : Cell
  path : Option (List Cell)
deriving DecidableEq, Repr

/-- Manhattan distance between two cells, as used for the longest-first sort
and the endpoint spacing check. -/
def manhattanDist (a b : Cell) : ℕ :=
  ((a.x : ℤ) - (b.x : ℤ)).natAbs + ((a.y : ℤ) - (b.y : ℤ)).natAbs

/-- The constraints the endpoint sampling loop of generateRoutedPairs
enforces (part_004 lines 94-121): endpoints lie on the grid, all endpoint
cells are distinct (the used set), and each pair's endpoints are more than
one step apart.  An attempt whose random draws cannot satisfy them is
abandoned (safe = false). -/
def placementsValid (size : ℕ) (ps : List (Cell × Cell)) : Bool :=
  decide (ps.flatMap (fun p => [p.1, p.2])).Nodup &&
    ps.all (fun p =>
      decide (p.1.x < size) && decide (p.1.y < size) &&
        decide (p.2.x < size) && decide (p.2.y < size) &&
        decide (1 < manhattanDist p.1 p.2))

/-- Descending insertion by Manhattan distance, realising the longest-first
sort of part_004 line 125. -/
def insertPairByDist (p : FlowPair) : List FlowPair → List FlowPair
  | [] => [p]
  | q :: rest =>
    if manhattanDist q.a q.b < manhattanDist p.a p.b then p :: q :: rest
    else q :: insertPairByDist p rest

def sortPairsByDistDesc (l : List FlowPair) : List FlowPair :=
  l.foldr insertPairByDist []

/-- The routing pass of generateRoutedPairs (part_004 lines 127-147): for
each pair in longest-first order, its endpoints are released from the
occupied set, a BFS route is sought, the endpoints are restored and the
route's cells become occupied; any unroutable pair fails the whole attempt. -/
def routePairs (size : ℕ) : List FlowPair → List Cell → Option (List FlowPair)
  | [], _ => some []
  | p :: rest, occupied =>
    let occ0 := occupied.filter (fun c => c ≠ p.a ∧ c ≠ p.b)
    match bfsPath p.a p.b size occ0 with
    | none => none
    | some path =>
      match routePairs size rest ((occ0 ++ [p.a, p.b]) ++ path) with
      | none => none
      | some rs => some ({ p with path := some path } :: rs)

/-- One attempt of generateRoutedPairs (part_004 lines 89-156): the sampled
endpoint placements must satisfy the sampling constraints and fill the pair
budget min(pairCount, cells/4); the pairs (ids in placement order) are then
sorted longest-first and routed.  The final cosmetic shuffle of the returned
list is omitted (it only permutes the pairs). -/
def runAttempt (size pairCount : ℕ) (ps : List (Cell × Cell)) : Option (List FlowPair) :=
  let maxPairs := min pairCount (size * size / 4)
  if ps.length = maxPairs ∧ placementsValid size ps then
    let pairs := ps.enum.map (fun q =>
      { id := q.1, a := q.2.1, b := q.2.2, path := none : FlowPair })
    routePairs size (sortPairsByDistDesc pairs) (ps.flatMap (fun p => [p.1, p.2]))
  else none

/-- The fallback layout of generateRoutedPairs (part_004 lines 159-168),
returned when every routing attempt has failed: pair i runs from cell
(i mod size, i div size) to cell ((i+2) mod size, (i+2) div size). -/
def fallbackPairs (size pairCount : ℕ) : List FlowPair :=
  (List.range (min pairCount (size * size / 6))).map (fun i =>
    { id := i
      a := { x := i % size, y := i / size }
      b := { x := (i + 2) % size, y := (i + 2) / size }
      path := none })

/-- generateRoutedPairs (part_004 lines 86-170): try each attempt's random
endpoint placements in turn (at most attemptsLimit = 450 in the source),
return the first fully routed layout, and fall back to fallbackPairs when
all attempts fail. -/
def generateRoutedPairs (size pairCount : ℕ) : List (List (Cell × Cell)) → List FlowPair
  | [] => fallbackPairs size pairCount
  | ps :: rest =>
    match runAttempt size pairCount ps with
    | some pairs => pairs
    | none => generateRoutedPairs size pairCount rest

/-- A valid 4-neighbour route on a size by size grid from a to b: nonempty,
starts at a, ends at b, each step moves to a grid neighbour. -/
def isRoute (size : ℕ) (a b : Cell) (p : List Cell) : Prop :=
  p ≠ [] ∧ p.head? = some a ∧ p.getLast? = some b ∧
    p.Chain' (fun u v => v ∈ neighborsOf u size)

instance (size : ℕ) (a b : Cell) (p : List Cell) : Decidable (isRoute size a b p) :=
  inferInstanceAs (Decidable (p ≠ [] ∧ p.head? = some a ∧ p.getLast? = some b ∧
    p.Chain' (fun u v => v ∈ neighborsOf u size)))

/-! ### GalaxySlice geometry (slice trail versus fruit)

The slicer is the one place the source takes square roots (Math.hypot), so
these definitions live over the reals.
-/

/-- Math.hypot(x1 - x2, y1 - y2): the Euclidean distance between two points. -/
noncomputable def ptDist (x1 y1 x2 y2 : ℝ) : ℝ :=
  Real.sqrt ((x1 - x2) ^ 2 + (y1 - y2) ^ 2)

/-- segPointDist (GalaxySlice.tsx lines 101-113): distance from the segment
from (aX, aY) to (bX, bY) to the point (pX, pY).  The point is projected onto
the segment's line, the parameter c1/c2 is clamped to the unit interval, and
the Euclidean distance to the clamped projection is returned; a degenerate
segment (c2 <= 0) yields the distance to the single endpoint. -/
noncomputable def segPointDist (aX aY bX bY pX pY : ℝ) : ℝ :=
  let vx := bX - aX
  let vy := bY - aY
  let wx := pX - aX
  let wy := pY - aY
  let c1 := vx * wx + vy * wy
  let c2 := vx * vx + vy * vy
  if c2 ≤ 0 then ptDist pX pY aX aY
  else
    let t := max 0 (min 1 (c1 / c2))
    let projx := aX + t * vx
    let projy := aY + t * vy
    Real.sqrt ((pX - projx) ^ 2 + (pY - projy) ^ 2)

/-- The per-fruit hit condition of checkSliceCollisions (GalaxySlice.tsx
lines 290-306): the whole check is skipped for a degenerate slice segment
(the early return at line 291), an already exploded fruit is skipped, and
otherwise the fruit is sliced iff the segment-to-centre distance is at most
THRESHOLD_MULT = 0.6 times the fruit's radius size/2. -/
def sliceHit (aX aY bX bY fX fY fsize : ℝ) (exploded : Bool) : Prop :=
  ¬(aX = bX ∧ aY = bY) ∧ exploded = false ∧
    segPointDist aX aY bX bY fX fY ≤ fsize / 2 * (0.6 : ℝ)

/-! ### Sample inputs used to instantiate the theorems below -/

def sampleGameId : String := "catch"

def sampleDate : String := "2026-10-11"

/-- A user record whose ledger entry for the sample game already carries the
sample date. -/
def sampleLedger : UserData :=
  { diamonds := some 1
    xp := some 2
    minigames := some (fun g =>
      if g = sampleGameId then some { lastPlayed := sampleDate, reward := 1 / 2 }
      else none) }

/-- A CometCatch session in mid-play with the target already reached. -/
def cometSampleA : CometSession :=
  { gameState := CometState.playing
    hearts := 3
    score := 100
    timeLeft := 50
    falling := []
    isAwarded := false
    running := true
    lastTs := some 0
    gameH := 640
    basketX := 0
    basketW := 120
    basketH := 60
    nextId := 1 }

/-- The same session with the score still below the target. -/
def cometSampleB : CometSession := { cometSampleA with score := 10 }

/-- The same session down to its last heart. -/
def cometSampleC : CometSession := { cometSampleA with hearts := 1 }

/-- A GalaxyBlaster session on its last second of play. -/
def blasterSample : BlasterSession :=
  { gameState := PState.playing
    combo := 0
    multiplier := 1
    showAdPrompt := false
    isAwarded := false
    score := 0
    timeLeft := 1
    enemies := []
    particles := []
    nextEnemyId := 1
    spawnTimer := 0
    spawnInterval := BASE_SPAWN_INTERVAL_MS
    running := true }

/-- A GalaxyRunner session frozen in the ad state after losing its hearts. -/
def runnerSample : RunnerSession :=
  { gameState := PState.ad
    hearts := 0
    playerX := 40
    playerY := 300
    playerVy := 0
    grounded := true
    spawnTimer := 0
    timeLeft := 20
    invulnerableUntil := 0
    obstacles := []
    nextId := 1
    animTimer := 0
    running := false
    lastT := none
    sizeW := 360
    sizeH := 480 }

/-- A fixed tuple of random draws for the runner spawner. -/
def drawSample : RunnerDraw :=
  { r1 := 0, r2 := 0, r3 := 0, r4 := 0, r5 := 0, r6 := 0 }

/-- The falling item of the catcher counterexample: a 10-pixel gem whose
square clips the basket's top-right corner. -/
def fallingSample : Falling :=
  { id := 1, ftype := SpawnType.gem, x := 95, y := 0, size := 10, speed := 0 }

/-! ## Theorems -/

/-- C10: the daily-limit check fails open.  For every user and every thrown
read error, hasPlayedToday returns false (so the Start action is permitted)
instead of propagating the failure; a signed-out user likewise yields false.
Totality of the Lean function reflects that the catch block converts every
error into a return value. -/
theorem C10_hasPlayedToday_fails_open :
    (∀ (u : Option String) (today msg : String),
      hasPlayedToday u today (FetchOutcome.err msg) = false) ∧
    (∀ (today : String) (f : FetchOutcome), hasPlayedToday none today f = false) := by
  constructor
  · intro u today msg
    cases u <;> rfl
  · intro today f
    rfl

/-- C8: a Start action with no authenticated user fails with NotSignedIn and
a Start action when the game was already played today fails with
DailyLimitReached; in both cases the whole session record (state, score,
hearts, timer, entity list and every other component) is returned unchanged,
for CometCatch and GalaxyBlaster alike. -/
theorem C8_start_guards :
    (∀ (played : Bool) (w : ℚ) (s : CometSession),
      cometStartGame none played w s = (s, StartOutcome.notSignedIn)) ∧
    (∀ (u : String) (w : ℚ) (s : CometSession),
      cometStartGame (some u) true w s = (s, StartOutcome.dailyLimitReached)) ∧
    (∀ (played : Bool) (s : BlasterSession),
      blasterStartGame none played s = (s, StartOutcome.notSignedIn)) ∧
    (∀ (u : String) (s : BlasterSession),
      blasterStartGame (some u) true s = (s, StartOutcome.dailyLimitReached)) :=
  ⟨fun _ _ _ => rfl, fun _ _ _ => rfl, fun _ _ => rfl, fun _ _ => rfl⟩

/-- C7: the per-frame timestep is exactly min(maxStep, now - lastFrameTime)
for the game's maxStep (60 ms in CometCatch, 40 ms in GalaxySlice, the
latter then converted to seconds), is never negative, and never exceeds
maxStep - so a multi-second stall advances the simulation by at most one
maxStep. -/
theorem C7_dt_clamp (last now : ℚ) (h : last ≤ now) :
    cometDtOf last now = min 60 (now - last) ∧
    0 ≤ cometDtOf last now ∧ cometDtOf last now ≤ 60 ∧
    sliceDtOf last now = min (40 / 1000) ((now - last) / 1000) ∧
    0 ≤ sliceDtOf last now ∧ sliceDtOf last now ≤ 40 / 1000 := by
  have hd : 0 ≤ now - last := by linarith
  refine ⟨rfl, le_min (by norm_num) hd, min_le_left _ _, ?_, ?_, ?_⟩
  · unfold sliceDtOf
    rw [max_eq_right (le_min (by norm_num) hd)]
    rcases le_total (40 : ℚ) (now - last) with h40 | h40
    · rw [min_eq_left h40, min_eq_left (by linarith)]
    · rw [min_eq_right h40, min_eq_right (by linarith)]
  · unfold sliceDtOf
    positivity
  · unfold sliceDtOf
    have : max 0 (min 40 (now - last)) ≤ 40 := max_le (by norm_num) (min_le_left _ _)
    linarith

/-- C7 witness: a five-second stall (last = 0, now = 5000 ms) is clamped to
one 60 ms step in CometCatch and one 0.04 s step in GalaxySlice. -/
theorem C7_dt_clamp_witness :
    (0 : ℚ) ≤ 5000 ∧
    (cometDtOf 0 5000 = min 60 (5000 - 0) ∧
      0 ≤ cometDtOf 0 5000 ∧ cometDtOf 0 5000 ≤ 60 ∧
      sliceDtOf 0 5000 = min (40 / 1000) ((5000 - 0) / 1000) ∧
      0 ≤ sliceDtOf 0 5000 ∧ sliceDtOf 0 5000 ≤ 40 / 1000) :=
  ⟨by norm_num, C7_dt_clamp 0 5000 (by norm_num)⟩

/-- C2 (failing case): when every shuffle attempt is rejected,
shuffleSolvable returns the fallback board, and that board has inversion
count 1 - odd, hence unsolvable by the generator's own parity criterion -
though it is indeed not solved.  The final conjunct shows the fallback is
the only way an unsolvable board can escape: every returned board is either
accepted (even parity and not solved) or is this fallback. -/
theorem C2_slide_fallback_unsolvable :
    shuffleSolvable [] = slideFallbackBoard ∧
    inversions (flatTiles slideFallbackBoard) = 1 ∧
    solvableBoard slideFallbackBoard = false ∧
    isSolvedBoard slideFallbackBoard = false ∧
    (∀ attempts : List (List ℕ × ℕ),
      (solvableBoard (shuffleSolvable attempts) &&
        !isSolvedBoard (shuffleSolvable attempts)) = true ∨
      shuffleSolvable attempts = slideFallbackBoard) := by
  refine ⟨rfl, rfl, rfl, rfl, ?_⟩
  intro attempts
  induction attempts with
  | nil => right; rfl
  | cons a rest ih =>
    obtain ⟨order, blankPos⟩ := a
    by_cases hacc :
      (solvableBoard (toArrayWithNull order blankPos) &&
        !isSolvedBoard (toArrayWithNull order blankPos)) = true
    · left
      have hrw : shuffleSolvable ((order, blankPos) :: rest) = toArrayWithNull order blankPos := by
        simp [shuffleSolvable, hacc]
      rw [hrw]
      exact hacc
    · have hrec : shuffleSolvable ((order, blankPos) :: rest) = shuffleSolvable rest := by
        simp [shuffleSolvable, hacc]
      rw [hrec]
      exact ih

/-- Unfolding equation for the transaction body. -/
theorem awardTxn_def (r x : ℚ) (gid today : String) (cur : Option UserData) :
    awardTxn r x gid today cur =
      if entryIsToday (mgOf (cur.getD emptyUserData)) gid today then cur.getD emptyUserData
      else
        { diamonds := some ((cur.getD emptyUserData).diamonds.getD 0 + r)
          xp := some ((cur.getD emptyUserData).xp.getD 0 + x)
          minigames := some (fun g =>
            if g = gid then some { lastPlayed := today, reward := r }
            else mgOf (cur.getD emptyUserData) g) } := rfl

/-- C1: the reward transaction is idempotent per calendar day.  When the
ledger entry for the game already carries today's date the transaction
returns the record unchanged; otherwise it adds the game's reward to
diamonds, the xp amount to xp, and writes (lastPlayed = today, reward) into
the ledger - and running the transaction again on its own output is a no-op,
so two same-day invocations apply the reward exactly once. -/
theorem C1_awardOnce_idempotent (r x : ℚ) (gid today : String) :
    (∀ d : UserData, entryIsToday (mgOf d) gid today = true →
      awardTxn r x gid today (some d) = d) ∧
    (∀ d : UserData, entryIsToday (mgOf d) gid today = false →
      (awardTxn r x gid today (some d)).diamonds = some (d.diamonds.getD 0 + r) ∧
      (awardTxn r x gid today (some d)).xp = some (d.xp.getD 0 + x) ∧
      mgOf (awardTxn r x gid today (some d)) gid =
        some { lastPlayed := today, reward := r }) ∧
    (∀ cur : Option UserData,
      awardTxn r x gid today (some (awardTxn r x gid today cur)) =
        awardTxn r x gid today cur) := by
  refine ⟨?_, ?_, ?_⟩
  · intro d h
    rw [awardTxn_def]
    simp only [Option.getD_some]
    rw [if_pos h]
  · intro d h
    rw [awardTxn_def]
    simp only [Option.getD_some]
    rw [if_neg (by simp [h])]
    refine ⟨rfl, rfl, ?_⟩
    simp [mgOf]
  · intro cur
    cases hc : entryIsToday (mgOf (cur.getD emptyUserData)) gid today with
    | true =>
      have h1 : awardTxn r x gid today cur = cur.getD emptyUserData := by
        rw [awardTxn_def, if_pos hc]
      rw [h1, awardTxn_def]
      simp only [Option.getD_some]
      rw [if_pos hc]
    | false =>
      have h2 : entryIsToday (mgOf (awardTxn r x gid today cur)) gid today = true := by
        rw [awardTxn_def, if_neg (by simp [hc])]
        simp [mgOf, entryIsToday]
      conv_lhs => rw [awardTxn_def]
      simp only [Option.getD_some]
      rw [if_pos h2]

/-- C1 witness: with the sample ledger already stamped today, the
transaction returns the record untouched; starting from an empty record it
credits the half-diamond reward. -/
theorem C1_awardOnce_idempotent_witness :
    entryIsToday (mgOf sampleLedger) sampleGameId sampleDate = true ∧
    awardTxn (1 / 2) 2 sampleGameId sampleDate (some sampleLedger) = sampleLedger ∧
    entryIsToday (mgOf emptyUserData) sampleGameId sampleDate = false ∧
    (awardTxn (1 / 2) 2 sampleGameId sampleDate (some emptyUserData)).diamonds =
      some (emptyUserData.diamonds.getD 0 + 1 / 2) := by
  have h := C1_awardOnce_idempotent (1 / 2) 2 sampleGameId sampleDate
  exact ⟨by decide, h.1 sampleLedger (by decide), by decide,
    (h.2.1 emptyUserData (by decide)).1⟩

/-- C4 counterexample: a playing CometCatch session with score 10 (below
the target of 80) whose countdown expires goes directly to the lose state,
not to the ad state - refuting the claim that time expiry below target
always yields the ad prompt. -/
theorem C4_counterexample :
    cometSampleB.gameState = CometState.playing ∧
    cometSampleB.score < TARGET_SCORE_catch ∧
    max 0 (cometSampleB.timeLeft - 60) ≤ 0 ∧
    (cometTimerStep 60 cometSampleB).gameState = CometState.lose ∧
    decide ((cometTimerStep 60 cometSampleB).gameState = CometState.ad) = false := by
  refine ⟨rfl, by decide, ?_, ?_, ?_⟩
  · norm_num [cometSampleB, cometSampleA]
  · simp only [cometTimerStep, cometSampleB, cometSampleA]
    norm_num [TARGET_SCORE_catch]
  · simp only [cometTimerStep, cometSampleB, cometSampleA]
    norm_num [TARGET_SCORE_catch]
    decide

/-- C4 (amended): what time expiry actually does.  In CometCatch, when the
countdown reaches zero the session goes to win when the score is at or above
the target and directly to lose otherwise (the ad state is reached only by
losing all hearts, not by the timer).  In GalaxyBlaster the one-second
ticker, on reaching zero, always stops the game and goes to the ad state,
whatever the score (the win check runs in the frame loop, not in the
ticker). -/
theorem C4_time_expiry_transitions (dt : ℚ) (s : CometSession) (sb : BlasterSession) :
    (max 0 (s.timeLeft - dt) ≤ 0 → TARGET_SCORE_catch ≤ s.score →
      (cometTimerStep dt s).gameState = CometState.win) ∧
    (max 0 (s.timeLeft - dt) ≤ 0 → s.score < TARGET_SCORE_catch →
      (cometTimerStep dt s).gameState = CometState.lose) ∧
    (0 < max 0 (s.timeLeft - dt) → (cometTimerStep dt s).gameState = s.gameState) ∧
    (max 0 (sb.timeLeft - 1) ≤ 0 →
      (blasterTick sb).gameState = PState.ad ∧ (blasterTick sb).showAdPrompt = true ∧
        (blasterTick sb).running = false) ∧
    (0 < max 0 (sb.timeLeft - 1) → (blasterTick sb).gameState = sb.gameState) := by
  refine ⟨?_, ?_, ?_, ?_, ?_⟩
  · intro h1 h2
    simp only [cometTimerStep]
    rw [if_pos h1, if_pos h2]
  · intro h1 h2
    simp only [cometTimerStep]
    rw [if_pos h1, if_neg (not_le.mpr h2)]
  · intro h1
    simp only [cometTimerStep]
    rw [if_neg (not_le.mpr h1)]
  · intro h1
    simp only [blasterTick]
    rw [if_pos h1]
    exact ⟨rfl, rfl, rfl⟩
  · intro h1
    simp only [blasterTick]
    rw [if_neg (not_le.mpr h1)]

/-- C4 witness: at 50 ms left and a 60 ms step, the sample session at score
100 wins, the one at score 10 loses, and the blaster session on its last
second goes to the ad state. -/
theorem C4_time_expiry_transitions_witness :
    (cometTimerStep 60 cometSampleA).gameState = CometState.win ∧
    (cometTimerStep 60 cometSampleB).gameState = CometState.lose ∧
    (blasterTick blasterSample).gameState = PState.ad := by
  refine ⟨?_, ?_, ?_⟩
  · exact (C4_time_expiry_transitions 60 cometSampleA blasterSample).1
      (by norm_num [cometSampleA]) (by decide)
  · exact (C4_time_expiry_transitions 60 cometSampleB blasterSample).2.1
      (by norm_num [cometSampleB, cometSampleA]) (by decide)
  · exact ((C4_time_expiry_transitions 60 cometSampleB blasterSample).2.2.2.1
      (by norm_num [blasterSample])).1

/-- C6 counterexample: the catcher's collision test is not the circle test.
The 10-pixel item at x = 95 whose bottom just reaches the basket band of a
120-wide, 50-tall basket at the corner is reported caught, yet the distance
between the item's centre (100, 650) and the basket's centre (50, 625)
exceeds the sum of the natural radii size/2 + basketW/2 = 55. -/
theorem C6_counterexample :
    cometCollided 666 0 100 50 fallingSample 645 = true ∧
    (5 : ℝ) + 50 < ptDist (95 + 10 / 2) (645 + 10 / 2) (0 + 100 / 2) ((666 - 50 - 16) + 50 / 2) := by
  constructor
  · simp only [cometCollided, fallingSample]
    norm_num
  · unfold ptDist
    rw [show ((95 : ℝ) + 10 / 2 - (0 + 100 / 2)) ^ 2 +
        ((645 : ℝ) + 10 / 2 - ((666 - 50 - 16) + 50 / 2)) ^ 2 = 3125 by norm_num]
    rw [show (5 : ℝ) + 50 = 55 by norm_num]
    rw [show (55 : ℝ) = Real.sqrt (55 ^ 2) from (Real.sqrt_sq (by norm_num)).symm]
    apply Real.sqrt_lt_sqrt (by norm_num)
    norm_num

/-- C6 (amended): the bullet-asteroid test of OrbitDefense reports a
collision iff the distance between centres is at most the sum of the radii,
boundary (exact tangency) included; the catcher, by contrast, uses the
inclusive axis-aligned box-overlap test between the item's square and the
basket rectangle. -/
theorem C6_collision_tests (bX bY bRadius aX aY aRadius : ℚ)
    (hb : 0 ≤ bRadius) (ha : 0 ≤ aRadius) :
    (orbitHit bX bY bRadius aX aY aRadius = true ↔
      ptDist (aX : ℝ) (aY : ℝ) (bX : ℝ) (bY : ℝ) ≤ ((aRadius : ℝ) + (bRadius : ℝ))) ∧
    (∀ (gameH basketX basketW basketH ny : ℚ) (item : Falling),
      cometCollided gameH basketX basketW basketH item ny = true ↔
        (gameH - basketH - 16 ≤ ny + item.size ∧ ny ≤ gameH - basketH - 16 + basketH ∧
          basketX ≤ item.x + item.size ∧ item.x ≤ basketX + basketW)) := by
  constructor
  · have h1 : orbitHit bX bY bRadius aX aY aRadius = true ↔
        (aX - bX) * (aX - bX) + (aY - bY) * (aY - bY) ≤
          (aRadius + bRadius) * (aRadius + bRadius) := by
      simp [orbitHit]
    rw [h1]
    have hrr : (0 : ℝ) ≤ (aRadius : ℝ) + (bRadius : ℝ) :=
      add_nonneg (by exact_mod_cast ha) (by exact_mod_cast hb)
    constructor
    · intro h
      have hr : ((aX : ℝ) - bX) ^ 2 + ((aY : ℝ) - bY) ^ 2 ≤
          ((aRadius : ℝ) + bRadius) ^ 2 := by
        have := (Rat.cast_le (K := ℝ)).mpr h
        push_cast at this
        nlinarith [this]
      unfold ptDist
      calc Real.sqrt (((aX : ℝ) - bX) ^ 2 + ((aY : ℝ) - bY) ^ 2) ≤
          Real.sqrt (((aRadius : ℝ) + bRadius) ^ 2) := Real.sqrt_le_sqrt hr
        _ = (aRadius : ℝ) + bRadius := Real.sqrt_sq hrr
    · intro h
      unfold ptDist at h
      have hr : ((aX : ℝ) - bX) ^ 2 + ((aY : ℝ) - bY) ^ 2 ≤
          ((aRadius : ℝ) + bRadius) ^ 2 := by
        have := Real.sq_sqrt (by positivity :
          (0 : ℝ) ≤ ((aX : ℝ) - bX) ^ 2 + ((aY : ℝ) - bY) ^ 2)
        nlinarith [h, Real.sqrt_nonneg (((aX : ℝ) - bX) ^ 2 + ((aY : ℝ) - bY) ^ 2)]
      rw [← Rat.cast_le (K := ℝ)]
      push_cast
      nlinarith [hr]
  · intro gameH basketX basketW basketH ny item
    simp [cometCollided, and_assoc]

/-- C6 witness: an exact-tangency case - a bullet of radius 2 at the origin
and an asteroid of radius 3 at (3, 4), centre distance exactly 5 = 2 + 3 -
is reported as a hit, and conversely the circle-side bound holds there. -/
theorem C6_collision_tests_witness :
    orbitHit 0 0 2 3 4 3 = true ∧
    ptDist ((3 : ℚ) : ℝ) ((4 : ℚ) : ℝ) ((0 : ℚ) : ℝ) ((0 : ℚ) : ℝ) ≤
      (((3 : ℚ) : ℝ) + ((2 : ℚ) : ℝ)) := by
  have h := (C6_collision_tests 0 0 2 3 4 3 (by norm_num) (by norm_num)).1
  have horbit : orbitHit 0 0 2 3 4 3 = true := by
    simp only [orbitHit]
    norm_num
  exact ⟨horbit, h.mp horbit⟩

/-- A list contains its head. -/
theorem mem_of_head?_eq {α : Type} {l : List α} {a : α} (h : l.head? = some a) : a ∈ l := by
  cases l with
  | nil => cases h
  | cons x xs =>
    simp only [List.head?_cons, Option.some.injEq] at h
    simp [h]

/-- A list contains its last element. -/
theorem mem_of_getLast?_eq {α : Type} : ∀ {l : List α} {a : α}, l.getLast? = some a → a ∈ l
  | [], _, h => by cases h
  | [x], a, h => by
    simp only [List.getLast?_singleton, Option.some.injEq] at h
    simp [h]
  | x :: y :: ys, a, h => by
    rw [List.getLast?_cons_cons] at h
    exact List.mem_cons_of_mem x (mem_of_getLast?_eq h)

/-- C3 (failing case): when all routing attempts fail, generateRoutedPairs
returns the fallback layout, and for the shipped configuration (size 7,
6 pairs) that layout places the b endpoint of pair 0 and the a endpoint of
pair 2 on the same cell (2, 0) - so any route for pair 0 and any route for
pair 2 must share a cell, and no family of pairwise disjoint routes exists:
the fallback board is unsolvable under non-crossing paths. -/
theorem C3_fallback_unroutable :
    generateRoutedPairs 7 6 [] = fallbackPairs 7 6 ∧
    (fallbackPairs 7 6).get? 0 =
      some { id := 0, a := { x := 0, y := 0 }, b := { x := 2, y := 0 }, path := none } ∧
    (fallbackPairs 7 6).get? 2 =
      some { id := 2, a := { x := 2, y := 0 }, b := { x := 4, y := 0 }, path := none } ∧
    (∀ r0 r2 : List Cell,
      isRoute 7 { x := 0, y := 0 } { x := 2, y := 0 } r0 →
      isRoute 7 { x := 2, y := 0 } { x := 4, y := 0 } r2 →
      ∃ c : Cell, c ∈ r0 ∧ c ∈ r2) := by
  refine ⟨rfl, rfl, rfl, ?_⟩
  intro r0 r2 h0 h2
  exact ⟨{ x := 2, y := 0 }, mem_of_getLast?_eq h0.2.2.1, mem_of_head?_eq h2.2.1⟩

/-- C3 witness: the straight-line routes for pairs 0 and 2 of the fallback
layout are valid routes and indeed collide at cell (2, 0). -/
theorem C3_fallback_unroutable_witness :
    isRoute 7 { x := 0, y := 0 } { x := 2, y := 0 }
      [{ x := 0, y := 0 }, { x := 1, y := 0 }, { x := 2, y := 0 }] ∧
    isRoute 7 { x := 2, y := 0 } { x := 4, y := 0 }
      [{ x := 2, y := 0 }, { x := 3, y := 0 }, { x := 4, y := 0 }] ∧
    ∃ c : Cell,
      c ∈ [{ x := 0, y := 0 }, { x := 1, y := 0 }, ({ x := 2, y := 0 } : Cell)] ∧
      c ∈ [{ x := 2, y := 0 }, { x := 3, y := 0 }, ({ x := 4, y := 0 } : Cell)] := by
  have hr0 : isRoute 7 { x := 0, y := 0 } { x := 2, y := 0 }
      [{ x := 0, y := 0 }, { x := 1, y := 0 }, { x := 2, y := 0 }] := by
    simp [isRoute, neighborsOf, List.chain'_cons]
  have hr2 : isRoute 7 { x := 2, y := 0 } { x := 4, y := 0 }
      [{ x := 2, y := 0 }, { x := 3, y := 0 }, { x := 4, y := 0 }] := by
    simp [isRoute, neighborsOf, List.chain'_cons]
  exact ⟨hr0, hr2, C3_fallback_unroutable.2.2.2 _ _ hr0 hr2⟩

/-- C5: properties of the slicer's segment-to-point distance.  A point lying
on the segment (parameter t in the unit interval) is at distance 0; when the
projection parameter c1/c2 falls below 0 the result is the distance to
endpoint a, which is then the nearer endpoint; when it exceeds 1 the result
is the distance to endpoint b, then the nearer endpoint (never the
infinite-line distance); a degenerate zero-length segment yields the distance
to its single point; and a slice hit on an unexploded fruit is registered iff
this distance is at most 0.6 times the fruit's radius. -/
theorem C5_segPointDist_spec (aX aY bX bY pX pY t fX fY fsize : ℝ) :
    (0 ≤ t → t ≤ 1 →
      segPointDist aX aY bX bY (aX + t * (bX - aX)) (aY + t * (bY - aY)) = 0) ∧
    (0 < (bX - aX) * (bX - aX) + (bY - aY) * (bY - aY) →
      (bX - aX) * (pX - aX) + (bY - aY) * (pY - aY) < 0 →
      segPointDist aX aY bX bY pX pY = ptDist pX pY aX aY ∧
        ptDist pX pY aX aY ≤ ptDist pX pY bX bY) ∧
    (0 < (bX - aX) * (bX - aX) + (bY - aY) * (bY - aY) →
      (bX - aX) * (bX - aX) + (bY - aY) * (bY - aY) <
        (bX - aX) * (pX - aX) + (bY - aY) * (pY - aY) →
      segPointDist aX aY bX bY pX pY = ptDist pX pY bX bY ∧
        ptDist pX pY bX bY ≤ ptDist pX pY aX aY) ∧
    segPointDist aX aY aX aY pX pY = ptDist pX pY aX aY ∧
    (¬(aX = bX ∧ aY = bY) →
      (sliceHit aX aY bX bY fX fY fsize false ↔
        segPointDist aX aY bX bY fX fY ≤ fsize / 2 * (0.6 : ℝ))) := by
  refine ⟨?_, ?_, ?_, ?_, ?_⟩
  · intro ht0 ht1
    by_cases hc : (bX - aX) * (bX - aX) + (bY - aY) * (bY - aY) ≤ 0
    · have h0 : (bX - aX) * (bX - aX) + (bY - aY) * (bY - aY) = 0 :=
        le_antisymm hc (add_nonneg (mul_self_nonneg _) (mul_self_nonneg _))
      have h1 := (add_eq_zero_iff_of_nonneg (mul_self_nonneg _) (mul_self_nonneg _)).mp h0
      have hbx : bX - aX = 0 := mul_self_eq_zero.mp h1.1
      have hby : bY - aY = 0 := mul_self_eq_zero.mp h1.2
      simp only [segPointDist]
      rw [if_pos hc]
      unfold ptDist
      rw [hbx, hby]
      simp
    · have hc' : 0 < (bX - aX) * (bX - aX) + (bY - aY) * (bY - aY) := lt_of_not_le hc
      simp only [segPointDist]
      rw [if_neg hc]
      have harg : (bX - aX) * (aX + t * (bX - aX) - aX) +
          (bY - aY) * (aY + t * (bY - aY) - aY) =
          t * ((bX - aX) * (bX - aX) + (bY - aY) * (bY - aY)) := by ring
      rw [harg, mul_div_assoc, div_self (ne_of_gt hc'), mul_one,
        min_eq_right ht1, max_eq_right ht0]
      simp
  · intro hc2 hc1
    have hdivneg : ((bX - aX) * (pX - aX) + (bY - aY) * (pY - aY)) /
        ((bX - aX) * (bX - aX) + (bY - aY) * (bY - aY)) < 0 :=
      div_neg_of_neg_of_pos hc1 hc2
    constructor
    · simp only [segPointDist]
      rw [if_neg (not_le.mpr hc2),
        min_eq_right (le_of_lt (lt_of_lt_of_le hdivneg zero_le_one)),
        max_eq_left (le_of_lt hdivneg)]
      unfold ptDist
      norm_num
    · unfold ptDist
      apply Real.sqrt_le_sqrt
      have key : (pX - bX) ^ 2 + (pY - bY) ^ 2 =
          (pX - aX) ^ 2 + (pY - aY) ^ 2 -
            2 * ((bX - aX) * (pX - aX) + (bY - aY) * (pY - aY)) +
            ((bX - aX) * (bX - aX) + (bY - aY) * (bY - aY)) := by ring
      linarith [key]
  · intro hc2 hg
    have hone : (1 : ℝ) ≤ ((bX - aX) * (pX - aX) + (bY - aY) * (pY - aY)) /
        ((bX - aX) * (bX - aX) + (bY - aY) * (bY - aY)) :=
      (one_le_div hc2).mpr (le_of_lt hg)
    constructor
    · simp only [segPointDist]
      rw [if_neg (not_le.mpr hc2), min_eq_left hone, max_eq_right zero_le_one]
      unfold ptDist
      rw [show aX + 1 * (bX - aX) = bX by ring, show aY + 1 * (bY - aY) = bY by ring]
    · unfold ptDist
      apply Real.sqrt_le_sqrt
      have key : (pX - bX) ^ 2 + (pY - bY) ^ 2 =
          (pX - aX) ^ 2 + (pY - aY) ^ 2 -
            2 * ((bX - aX) * (pX - aX) + (bY - aY) * (pY - aY)) +
            ((bX - aX) * (bX - aX) + (bY - aY) * (bY - aY)) := by ring
      linarith [key]
  · simp only [segPointDist]
    rw [if_pos (by simp)]
  · intro h
    unfold sliceHit
    simp [h]

/-- C5 witness: on the horizontal segment from (0,0) to (4,0), its midpoint
is at distance 0; the far point (-3,4), whose projection parameter is
negative, is at the distance 5 to the near endpoint (0,0), which does not
exceed its distance to the far endpoint. -/
theorem C5_segPointDist_spec_witness :
    segPointDist 0 0 4 0 (0 + (1 / 2 : ℝ) * (4 - 0)) (0 + (1 / 2 : ℝ) * (0 - 0)) = 0 ∧
    segPointDist 0 0 4 0 (-3) 4 = ptDist (-3) 4 0 0 ∧
    ptDist (-3) 4 0 0 ≤ ptDist (-3) 4 4 0 := by
  have h := C5_segPointDist_spec 0 0 4 0 (-3) 4 (1 / 2) 0 0 0
  refine ⟨h.1 (by norm_num) (by norm_num), ?_, ?_⟩
  · exact (h.2.1 (by norm_num) (by norm_num)).1
  · exact (h.2.1 (by norm_num) (by norm_num)).2

/-- The obstacle pass never drives hearts negative: every damage application
clamps at zero. -/
theorem runnerObstaclesLoop_hearts (now dt : ℚ) :
    ∀ (l : List Obstacle) (s : RunnerSession), 0 ≤ s.hearts →
      0 ≤ (runnerObstaclesLoop now dt l s).1.hearts := by
  intro l
  induction l with
  | nil =>
    intro s h
    simpa [runnerObstaclesLoop] using h
  | cons o rest ih =>
    intro s h
    simp only [runnerObstaclesLoop]
    split_ifs <;>
      first
        | exact ih _ h
        | exact le_max_left _ _
        | exact ih _ (le_max_left _ _)

/-- When the obstacle pass returns early (hearts depleted), the resulting
session is in the ad state, stopped, and at exactly zero hearts. -/
theorem runnerObstaclesLoop_halted (now dt : ℚ) :
    ∀ (l : List Obstacle) (s : RunnerSession),
      (runnerObstaclesLoop now dt l s).2 = true →
        (runnerObstaclesLoop now dt l s).1.gameState = PState.ad ∧
        (runnerObstaclesLoop now dt l s).1.running = false ∧
        (runnerObstaclesLoop now dt l s).1.hearts = 0 := by
  intro l
  induction l with
  | nil =>
    intro s h
    simp [runnerObstaclesLoop] at h
  | cons o rest ih =>
    intro s h
    simp only [runnerObstaclesLoop] at h ⊢
    split_ifs at h ⊢ <;>
      first
        | exact ih _ h
        | exact ⟨rfl, rfl, le_antisymm (by assumption) (le_max_left _ _)⟩

/-- C9: hearts depletion fires the ad transition exactly once.  A bomb on
the last heart sets the state to ad, stops the loop and clamps hearts at 0
(and a bomb never makes hearts negative); a non-running CometCatch frame
only clears its timestamp, so iterated frames after depletion are fixed and
the transition cannot re-fire.  In GalaxyRunner the update is guarded to the
playing state (so the frozen ad session is untouched), the update never
drives hearts negative, and the early-returning damage pass leaves the
session in the ad state, stopped, at exactly zero hearts. -/
theorem C9_hearts_depletion (ts ts2 now dt : ℚ) (draw : RunnerDraw)
    (s : CometSession) (r : RunnerSession)
    (hs : s.hearts ≤ 1) (hr : 0 ≤ r.hearts) :
    (∀ s' : CometSession, 0 ≤ (cometApplyHit s' SpawnType.bomb).hearts) ∧
    (cometApplyHit s SpawnType.bomb).gameState = CometState.ad ∧
    (cometApplyHit s SpawnType.bomb).running = false ∧
    (cometApplyHit s SpawnType.bomb).hearts = 0 ∧
    (∀ (ts3 : ℚ) (u : CometSession), u.running = false →
      cometFrame ts3 u = { u with lastTs := none }) ∧
    cometFrame ts2 (cometFrame ts (cometApplyHit s SpawnType.bomb)) =
      cometFrame ts (cometApplyHit s SpawnType.bomb) ∧
    (r.gameState ≠ PState.playing → runnerUpdate now dt draw r = r) ∧
    0 ≤ (runnerUpdate now dt draw r).hearts ∧
    ((runnerObstaclesLoop now dt r.obstacles r).2 = true →
      (runnerObstaclesLoop now dt r.obstacles r).1.gameState = PState.ad ∧
      (runnerObstaclesLoop now dt r.obstacles r).1.running = false ∧
      (runnerObstaclesLoop now dt r.obstacles r).1.hearts = 0) := by
  have ha : ∀ s' : CometSession, 0 ≤ (cometApplyHit s' SpawnType.bomb).hearts := by
    intro s'
    simp only [cometApplyHit]
    split_ifs with h
    · exact le_refl 0
    · exact le_of_lt (not_le.mp h)
  have hb : (cometApplyHit s SpawnType.bomb).gameState = CometState.ad ∧
      (cometApplyHit s SpawnType.bomb).running = false ∧
      (cometApplyHit s SpawnType.bomb).hearts = 0 := by
    simp only [cometApplyHit]
    rw [if_pos (by linarith : s.hearts - 1 ≤ 0)]
    exact ⟨rfl, rfl, rfl⟩
  have hframe : ∀ (ts3 : ℚ) (u : CometSession), u.running = false →
      cometFrame ts3 u = { u with lastTs := none } := by
    intro ts3 u hu
    simp only [cometFrame]
    rw [if_pos hu]
  have hfix : cometFrame ts2 (cometFrame ts (cometApplyHit s SpawnType.bomb)) =
      cometFrame ts (cometApplyHit s SpawnType.bomb) := by
    rw [hframe ts _ hb.2.1]
    exact hframe ts2 _ hb.2.1
  have hguard : r.gameState ≠ PState.playing → runnerUpdate now dt draw r = r := by
    intro hg
    simp only [runnerUpdate]
    rw [if_pos hg]
  have hupd : 0 ≤ (runnerUpdate now dt draw r).hearts := by
    simp only [runnerUpdate]
    split_ifs
    all_goals
      first
        | exact hr
        | exact runnerObstaclesLoop_hearts now dt _ _ hr
  exact ⟨ha, hb.1, hb.2.1, hb.2.2, hframe, hfix, hguard, hupd,
    runnerObstaclesLoop_halted now dt _ _⟩

/-- C9 witness: bombing the sample session on its last heart yields the ad
state at zero hearts, the next frame is inert apart from clearing the
timestamp, and the frozen sample runner session passes through its update
untouched with hearts still non-negative. -/
theorem C9_hearts_depletion_witness :
    (cometApplyHit cometSampleC SpawnType.bomb).gameState = CometState.ad ∧
    (cometApplyHit cometSampleC SpawnType.bomb).hearts = 0 ∧
    cometFrame 100 (cometApplyHit cometSampleC SpawnType.bomb) =
      { cometApplyHit cometSampleC SpawnType.bomb with lastTs := none } ∧
    runnerUpdate 0 16 drawSample runnerSample = runnerSample ∧
    0 ≤ (runnerUpdate 0 16 drawSample runnerSample).hearts := by
  have h := C9_hearts_depletion 100 200 0 16 drawSample cometSampleC runnerSample
    (by decide) (by decide)
  exact ⟨h.2.1, h.2.2.2.1, h.2.2.2.2.1 100 _ h.2.2.1,
    h.2.2.2.2.2.2.1 (by decide), h.2.2.2.2.2.2.2.1⟩

end GalaxyTrader
